import Mathlib

/-!
Shallow embedding of the ingestion and layer-promotion core of the
`data-engineer-challenge-2025` repository, together with theorems settling
the specified claims.

Source files embedded:
  * `src/ingest/ingest_excel_to_duckdb.py` — `load_excel_files`,
    `write_parquet_with_metadata`, `upload_to_s3`, `load_to_duckdb`, and the
    main execution flow.
  * `src/airflow/utils/pipeline_functions.py` — `run_ingestion` (command
    construction) and `validate_data_quality`.
  * `src/airflow/utils/config.py` — `DATA_QUALITY_THRESHOLDS`.

Modelling conventions: pandas DataFrames become a list of rows where each row
is an association list from column names to values (an absent key is a null
cell); the filesystem and clocks become explicit oracle parameters; DuckDB
statements become pure state transitions on a map from table names to row
lists, executed in source order so that an exception raised mid-sequence
leaves the earlier mutations committed (DuckDB autocommits each `execute`).
-/

namespace LoanPipeline

/-- Scalar cell values appearing in the tabular data: strings, numbers and
timestamp instants (the latter standing for `datetime.now()` results). -/
inductive Value where
  | str : String → Value
  | num : Int → Value
  | ts : Nat → Value
deriving DecidableEq

/-- A row of a DataFrame: an association list from column name to value.
A column absent from the list is a null (NaN) cell for that row. -/
abbrev Row := List (String × Value)

/-- Cell lookup in a row; `none` models a null / missing cell. -/
def rowGet (r : Row) (c : String) : Option Value :=
  (r.find? (fun p => p.1 == c)).map Prod.snd

/-- A pandas DataFrame: a column list plus rows. -/
structure DataFrame where
  cols : List String
  rows : List Row
deriving DecidableEq

/-- An Excel source file as seen by `pd.read_excel`: its filename (`.name`),
its column set and its rows. -/
structure ExcelFile where
  fname : String
  cols : List String
  rows : List Row
deriving DecidableEq

/-- A well-formed source file: every cell of every row belongs to one of the
declared columns. -/
def ExcelFile.wf (f : ExcelFile) : Prop :=
  ∀ r ∈ f.rows, ∀ p ∈ r, p.1 ∈ f.cols

/-- Embedding of `pd.read_excel` on the abstract file. -/
def read_excel (f : ExcelFile) : DataFrame := ⟨f.cols, f.rows⟩

/-- Embedding of lines 46-47 / 69-70 of `ingest_excel_to_duckdb.py`:
`df['_source_file'] = path.name; df['_ingestion_timestamp'] = datetime.now()`.
Adds the two provenance columns at the end of the frame and of each row. -/
def stamp (df : DataFrame) (srcName : String) (now : Nat) : DataFrame :=
  ⟨df.cols ++ ["_source_file", "_ingestion_timestamp"],
   df.rows.map (fun r =>
     r ++ [("_source_file", Value.str srcName), ("_ingestion_timestamp", Value.ts now)])⟩

/-- Column union in order of first appearance, as `pd.concat` aligns columns
across frames with differing schemas. -/
def colUnion (acc : List String) (cs : List String) : List String :=
  acc ++ cs.filter (fun c => !(acc.contains c))

/-- Embedding of `pd.concat(dfs, ignore_index=True)`: columns are the union
across all frames, rows are concatenated in order; a row keeps only its own
cells, so a column missing from its originating frame stays null for it. -/
def concatFrames (dfs : List DataFrame) : DataFrame :=
  ⟨dfs.foldl (fun acc df => colUnion acc df.cols) [],
   (dfs.map DataFrame.rows).flatten⟩

/-- Embedding of lines 75-79: a single frame is returned as-is, several are
concatenated. -/
def combine (dfs : List DataFrame) : DataFrame :=
  match dfs with
  | [df] => df
  | _ => concatFrames dfs

/-- Failures of the source-loading stage. `invalidConfiguration` embeds the
`ValueError` of line 73 (the spec names it `InvalidConfiguration`);
`fileNotFound` embeds the `FileNotFoundError` raised for an empty directory
match (line 63). -/
inductive SourceError where
  | fileNotFound : String → SourceError
  | invalidConfiguration : String → SourceError
deriving DecidableEq

/-- Embedding of `load_excel_files` (lines 35-79). The filesystem is
abstracted: `excel` is the resolved single source file when `--excel` was
given, `excel_dir` the glob-discovered file list (in discovery order) when
`--excel_dir` was given. `clock i` is the `datetime.now()` value observed at
the i-th read. The Python branch order is `if excel_path: ... elif
excel_dir: ... else: raise ValueError`, so a given single path wins over a
given directory. -/
def load_excel_files (clock : Nat → Nat) (excel : Option ExcelFile)
    (excel_dir : Option (List ExcelFile)) : Except SourceError DataFrame :=
  match excel with
  | some f => Except.ok (combine [stamp (read_excel f) f.fname (clock 0)])
  | none =>
    match excel_dir with
    | some files =>
      if files = [] then
        Except.error (SourceError.fileNotFound "No Excel files found")
      else
        Except.ok (combine (files.enum.map (fun fi => stamp (read_excel fi.2) fi.2.fname (clock fi.1))))
    | none =>
      Except.error (SourceError.invalidConfiguration "Either --excel or --excel_dir must be specified")

/-! ### SnapshotWriter (`write_parquet_with_metadata`, lines 81-100) -/

/-- Ingestion mode, line 28: `choices=['full_refresh', 'incremental']`. -/
inductive Mode where
  | full_refresh
  | incremental
deriving DecidableEq

/-- The literal string the mode contributes to the snapshot filename. -/
def modeStr : Mode → String
  | Mode.full_refresh => "full_refresh"
  | Mode.incremental => "incremental"

/-- Python string slicing `s[:n]`, used for `uuid.uuid4().hex[:8]`. -/
def strSlice (s : String) (n : Nat) : String := ⟨s.data.take n⟩

/-- Embedding of line 86-87: the snapshot filename
`f"{table_name}_{mode}_{timestamp}_{uuid.uuid4().hex[:8]}.parquet"`.
`timestamp` is the `strftime("%Y%m%d_%H%M%S")` rendering of the wall clock
(15 characters, second resolution) and `uuidHex` the 32-hex-character
`uuid4().hex` random draw, both passed as oracles. -/
def parquet_filename (table_name : String) (mode : Mode) (timestamp : String)
    (uuidHex : String) : String :=
  table_name ++ "_" ++ modeStr mode ++ "_" ++ timestamp ++ "_" ++ strSlice uuidHex 8 ++ ".parquet"

/-- Embedding of `write_parquet_with_metadata` (lines 81-100): the raw
directory is a list of (filename, contents) pairs in creation order; the
function appends exactly one new file and returns its name. -/
def write_parquet_with_metadata (rawDir : List (String × DataFrame)) (df : DataFrame)
    (table_name : String) (mode : Mode) (timestamp uuidHex : String) :
    List (String × DataFrame) × String :=
  let fname := parquet_filename table_name mode timestamp uuidHex
  (rawDir ++ [(fname, df)], fname)

/-! ### Mirror upload (`upload_to_s3`, lines 102-112) -/

/-- Failures of the mirror-upload stage: line 105 (`RuntimeError` when boto3
is missing), line 107 (`ValueError` when the bucket is empty — the spec's
configuration error), and a failed `s3.upload_file` network call (the spec's
`MirrorUploadError`). -/
inductive UploadError where
  | boto3Missing : UploadError
  | missingBucket : UploadError
  | s3Failure : UploadError
deriving DecidableEq

/-- Environment oracle for the upload: whether boto3 imported successfully
(lines 16-19) and whether the network copy succeeds. -/
structure S3Env where
  boto3Available : Bool
  uploadSucceeds : Bool
deriving DecidableEq

/-- Python `s3_prefix.rstrip('/')`. -/
def rstripSlash (s : String) : String :=
  ⟨(s.data.reverse.dropWhile (fun c => c == '/')).reverse⟩

/-- Embedding of `upload_to_s3` (lines 102-112). Returns the S3 key written
on success. The function never touches the local parquet file; it only reads
it, which is why it takes no local-filesystem state. The Python guard is
`if not s3_bucket`, and the argparse default for `--s3_bucket` is
`os.getenv('RAW_S3_BUCKET', '')`, so an unresolvable bucket is the empty
string here. -/
def upload_to_s3 (env : S3Env) (parquetName : String) (s3_bucket s3_prefix : String) :
    Except UploadError String :=
  if env.boto3Available = false then Except.error UploadError.boto3Missing
  else if s3_bucket = "" then Except.error UploadError.missingBucket
  else if env.uploadSucceeds then Except.ok (rstripSlash s3_prefix ++ "/" ++ parquetName)
  else Except.error UploadError.s3Failure

/-! ### LayerLoader (`load_to_duckdb`, lines 114-148) -/

/-- A load failure: the store rejected the data (malformed parquet,
unreadable snapshot). -/
inductive LoadError where
  | loadFailure : LoadError
deriving DecidableEq

/-- A snapshot artifact as consumed by `read_parquet`: either readable with
the given rows, or malformed so that reading it raises. -/
inductive Snapshot where
  | good : List Row → Snapshot
  | malformed : Snapshot
deriving DecidableEq

/-- Embedding of DuckDB `read_parquet` evaluation: a malformed snapshot makes
the enclosing SQL statement raise without effect, a good one yields its rows. -/
def read_parquet : Snapshot → Except LoadError (List Row)
  | Snapshot.good rs => Except.ok rs
  | Snapshot.malformed => Except.error LoadError.loadFailure

/-- State of the `raw` schema of the DuckDB store: for each table name,
`none` when the table does not exist, otherwise its rows. -/
abbrev RawSchema := String → Option (List Row)

/-- Result of one `load_to_duckdb` call: the raw schema after the call (each
`con.execute` autocommits, so mutations made before an exception persist),
the `printed` outcome (the error raised, or the final `SELECT COUNT(*)` value
printed at lines 145-146), and `ret`, the Python return value of the
function — the body ends at `con.close()` with no return statement, so it is
always `None`. -/
structure LoadResult where
  schema : RawSchema
  printed : Except LoadError Nat
  ret : Option Nat

/-- Embedding of `load_to_duckdb` (lines 114-148), statement by statement:

* `full_refresh` — line 121 `DROP TABLE IF EXISTS raw.{t}` executes first,
  then line 122 `CREATE TABLE raw.{t} AS SELECT * FROM read_parquet(...)`;
  if the snapshot is unreadable the drop has already committed and the
  failed `CREATE` leaves no table.
* `incremental` — lines 127-130 test existence; absent tables are created
  from the snapshot (line 134), present ones appended to (lines 138-141);
  a failed `CREATE`/`INSERT` is atomic and leaves the schema unchanged.
* on success line 145 computes the final count of `raw.{t}`. -/
def load_to_duckdb (snap : Snapshot) (s : RawSchema) (t : String) : Mode → LoadResult
  | Mode.full_refresh =>
    let s1 : RawSchema := fun n => if n = t then none else s n
    match read_parquet snap with
    | Except.error e => ⟨s1, Except.error e, none⟩
    | Except.ok rows =>
      let s2 : RawSchema := fun n => if n = t then some rows else s1 n
      ⟨s2, Except.ok rows.length, none⟩
  | Mode.incremental =>
    match s t with
    | none =>
      match read_parquet snap with
      | Except.error e => ⟨s, Except.error e, none⟩
      | Except.ok rows =>
        let s2 : RawSchema := fun n => if n = t then some rows else s n
        ⟨s2, Except.ok rows.length, none⟩
    | some prev =>
      match read_parquet snap with
      | Except.error e => ⟨s, Except.error e, none⟩
      | Except.ok rows =>
        let s2 : RawSchema := fun n => if n = t then some (prev ++ rows) else s n
        ⟨s2, Except.ok (prev ++ rows).length, none⟩

/-! ### QualityGate (`validate_data_quality`, pipeline_functions.py lines 132-162,
and `DATA_QUALITY_THRESHOLDS`, config.py lines 62-67) -/

/-- Failures of the quality gate. `emptyLayer l` embeds the
`ValueError("{L} layer is empty")` raises of lines 150-155 (the spec's
`EmptyLayer(layer)`); `missingTable` embeds the DuckDB catalog error raised
by `SELECT COUNT(*)` on an absent table, re-raised by the bare
`except ... raise` of lines 160-162. -/
inductive QualityError where
  | emptyLayer : String → QualityError
  | missingTable : String → QualityError
deriving DecidableEq

/-- The analytical store as the gate sees it: the `raw`, `silver` and `gold`
schemas, each a map from table name to rows (absent tables map to `none`). -/
structure Store where
  raw : RawSchema
  silver : RawSchema
  gold : RawSchema

/-- Embedding of `validate_data_quality` (lines 132-162). The three counted
tables are the fixed names `raw.raw_loans`, `silver.silver_loans` and
`gold.fact_loan` (lines 143-145); the emptiness tests are literal `== 0`
comparisons in that order (lines 150-155); on success the function returns
`True` (line 158). No value from `config.DATA_QUALITY_THRESHOLDS` is read
anywhere in the function, so the gate takes no threshold parameter here. -/
def validate_data_quality (st : Store) : Except QualityError Bool :=
  match st.raw "raw_loans" with
  | none => Except.error (QualityError.missingTable "raw.raw_loans")
  | some rawRows =>
    match st.silver "silver_loans" with
    | none => Except.error (QualityError.missingTable "silver.silver_loans")
    | some silverRows =>
      match st.gold "fact_loan" with
      | none => Except.error (QualityError.missingTable "gold.fact_loan")
      | some goldRows =>
        if rawRows.length = 0 then Except.error (QualityError.emptyLayer "raw")
        else if silverRows.length = 0 then Except.error (QualityError.emptyLayer "silver")
        else if goldRows.length = 0 then Except.error (QualityError.emptyLayer "gold")
        else Except.ok true

/-- The threshold configuration of `config.py` lines 62-67. -/
structure QualityThresholds where
  min_raw_rows : Nat
  min_silver_rows : Nat
  min_gold_rows : Nat
  max_duplicate_loan_ids : Nat
deriving DecidableEq

/-- `DATA_QUALITY_THRESHOLDS` of `config.py`: minimum 1 row per layer, no
duplicate loan ids. -/
def DATA_QUALITY_THRESHOLDS : QualityThresholds := ⟨1, 1, 1, 0⟩

/-! ### Airflow wrapper (`run_ingestion`, pipeline_functions.py lines 27-67) -/

/-- The environment variables `run_ingestion` consults; `none` models an
unset variable (`os.getenv` returning `None`). -/
structure AirflowEnv where
  ENVIRONMENT : Option String
  RAW_S3_BUCKET : Option String
  RAW_S3_PREFIX : Option String
  INGESTION_MODE : Option String
deriving DecidableEq

/-- Python truthiness of an optional string: `None` and `''` are falsy. -/
def truthy : Option String → Bool
  | none => false
  | some s => !(s == "")

/-- Embedding of the command-line construction of `run_ingestion` (lines
35-53). Path-valued arguments are abstracted to their basenames — they play
no role in the claims. The load-bearing branch is lines 49-53: only when
`ENVIRONMENT == 'production'` AND `RAW_S3_BUCKET` is truthy are
`--prod`/`--s3_bucket`/`--s3_prefix` appended; a production environment with
no bucket silently builds a command without `--prod`. -/
def run_ingestion_cmd (env : AirflowEnv) (paramMode : Option String) : List String :=
  let mode := match paramMode with
    | some m => m
    | none => match env.INGESTION_MODE with
      | some m => m
      | none => "full_refresh"
  let base := ["python", "ingest_excel_to_duckdb.py", "--duckdb", "data_challenge.duckdb",
               "--raw_dir", "raw_data", "--mode", mode]
  let withSrc := if mode = "incremental" then base ++ ["--excel_dir", "data"]
    else base ++ ["--excel", "Data Engineer Challenge.xlsx"]
  if env.ENVIRONMENT = some "production" then
    if truthy env.RAW_S3_BUCKET then
      withSrc ++ ["--prod", "--s3_bucket", env.RAW_S3_BUCKET.getD "",
                  "--s3_prefix", env.RAW_S3_PREFIX.getD "raw/loans"]
    else withSrc
  else withSrc

/-! ### Main execution flow (`ingest_excel_to_duckdb.py` lines 150-174) -/

/-- The parsed command-line arguments of the ingestion script that the main
flow uses (lines 21-33); source paths are resolved to their contents as in
`load_excel_files`. -/
structure IngestArgs where
  excel : Option ExcelFile
  excel_dir : Option (List ExcelFile)
  table : String
  mode : Mode
  prod : Bool
  s3_bucket : String
  s3_prefix : String

/-- Any failure of one ingestion run, tagged by stage. -/
inductive IngestError where
  | source : SourceError → IngestError
  | upload : UploadError → IngestError
  | load : LoadError → IngestError
deriving DecidableEq

/-- Observable outcome of one run of the ingestion script: the snapshot
directory contents, the raw schema of the store, and either the final row
count or the error that aborted the run. -/
structure IngestOutcome where
  rawDir : List (String × DataFrame)
  schema : RawSchema
  result : Except IngestError Nat

/-- Step 4 of the main flow (line 172): load the just-written snapshot into
DuckDB and package the outcome. -/
def finishLoad (rawDir : List (String × DataFrame)) (schema : RawSchema)
    (df : DataFrame) (a : IngestArgs) : IngestOutcome :=
  let r := load_to_duckdb (Snapshot.good df.rows) schema a.table a.mode
  ⟨rawDir, r.schema, r.printed.mapError IngestError.load⟩

/-- Embedding of the main execution flow (lines 150-174): load the Excel
sources, write the snapshot parquet, upload it to S3 only if `--prod` was
given (lines 168-169), then load into DuckDB. A failure at any step aborts
the run with that step's error, leaving the later steps unexecuted; in
particular an upload failure happens after the local snapshot is written and
does not remove it, and without `--prod` no upload is ever attempted. -/
def ingest_main (env : S3Env) (clock : Nat → Nat) (timestamp uuidHex : String)
    (a : IngestArgs) (schema : RawSchema) (rawDir : List (String × DataFrame)) :
    IngestOutcome :=
  match load_excel_files clock a.excel a.excel_dir with
  | Except.error e => ⟨rawDir, schema, Except.error (IngestError.source e)⟩
  | Except.ok df =>
    let w := write_parquet_with_metadata rawDir df a.table a.mode timestamp uuidHex
    if a.prod then
      match upload_to_s3 env w.2 a.s3_bucket a.s3_prefix with
      | Except.error e => ⟨w.1, schema, Except.error (IngestError.upload e)⟩
      | Except.ok _ => finishLoad w.1 schema df a
    else finishLoad w.1 schema df a

/-! ### Shared helper lemmas -/

/-- A `load_to_duckdb` call never touches tables other than its target. -/
theorem load_to_duckdb_preserves_other (snap : Snapshot) (s : RawSchema) (t n : String)
    (m : Mode) (h : n ≠ t) : (load_to_duckdb snap s t m).schema n = s n := by
  cases m with
  | full_refresh => cases snap <;> simp [load_to_duckdb, read_parquet, h]
  | incremental =>
    cases snap <;> cases hs : s t <;> simp [load_to_duckdb, read_parquet, hs, h]

/-! ### Claim theorems -/

/-- A pre-existing RAW table of five loans, for exercising the full_refresh
failure path. -/
def fiveRows : List Row :=
  [[("loan_id", Value.num 1)], [("loan_id", Value.num 2)], [("loan_id", Value.num 3)],
   [("loan_id", Value.num 4)], [("loan_id", Value.num 5)]]

/-- A raw schema in which `raw.raw_loans` exists with five rows. -/
def preSchema : RawSchema := fun n => if n = "raw_loans" then some fiveRows else none

/-- C1: contrary to the claim, `load_to_duckdb` under `full_refresh` executes
`DROP TABLE IF EXISTS` (line 121) before the `CREATE TABLE ... AS SELECT *
FROM read_parquet(...)` (line 122); on a pre-existing `raw.raw_loans` with
five rows, a malformed snapshot makes the load raise after the drop has
committed, so the previous table is not left intact: it is gone. -/
theorem full_refresh_drops_before_create :
    preSchema "raw_loans" = some fiveRows ∧
    fiveRows.length = 5 ∧
    (load_to_duckdb Snapshot.malformed preSchema "raw_loans" Mode.full_refresh).printed
      = Except.error LoadError.loadFailure ∧
    (load_to_duckdb Snapshot.malformed preSchema "raw_loans" Mode.full_refresh).schema "raw_loans"
      = none := by
  refine ⟨by simp [preSchema], rfl, rfl, ?_⟩
  simp [load_to_duckdb, read_parquet]

/-- C2 (amended): the decision table of `load_to_duckdb` and the resulting
counts. On a readable snapshot, `full_refresh` leaves the target table equal
to the snapshot rows with the printed count equal to the snapshot row count,
regardless of the previous state; `incremental` creates the table when
absent and appends when present, with the printed count equal to previous
count plus snapshot count (`(s t).getD []` is the previous contents, `[]`
when the table was absent). The count is printed, not returned: the `ret`
component — the Python return value of the function — is always `none`. -/
theorem load_to_duckdb_decision_table (s : RawSchema) (t : String) (rows : List Row) :
    ((load_to_duckdb (Snapshot.good rows) s t Mode.full_refresh).schema t = some rows ∧
     (load_to_duckdb (Snapshot.good rows) s t Mode.full_refresh).printed
        = Except.ok rows.length ∧
     (load_to_duckdb (Snapshot.good rows) s t Mode.full_refresh).ret = none) ∧
    ((load_to_duckdb (Snapshot.good rows) s t Mode.incremental).schema t
        = some ((s t).getD [] ++ rows) ∧
     (load_to_duckdb (Snapshot.good rows) s t Mode.incremental).printed
        = Except.ok (((s t).getD []).length + rows.length) ∧
     (load_to_duckdb (Snapshot.good rows) s t Mode.incremental).ret = none) := by
  refine ⟨⟨?_, ?_, ?_⟩, ?_⟩
  · simp [load_to_duckdb, read_parquet]
  · rfl
  · rfl
  · cases hs : s t <;> simp [load_to_duckdb, read_parquet, hs]

/-- C2 counterexample to the claim as stated: at a concrete successful
`full_refresh` load of one row, the printed final count is 1 but the
function's return value is `None`, not that count — `load_to_duckdb` ends at
`con.close()` (line 148) without a return statement, so no count is returned
to the caller. -/
theorem load_to_duckdb_count_not_returned :
    (load_to_duckdb (Snapshot.good [[("loan_id", Value.num 1)]])
        (fun _ => none) "raw_loans" Mode.full_refresh).printed = Except.ok 1 ∧
    (load_to_duckdb (Snapshot.good [[("loan_id", Value.num 1)]])
        (fun _ => none) "raw_loans" Mode.full_refresh).ret = none ∧
    (load_to_duckdb (Snapshot.good [[("loan_id", Value.num 1)]])
        (fun _ => none) "raw_loans" Mode.full_refresh).ret ≠ some 1 := by
  refine ⟨rfl, rfl, ?_⟩
  simp [load_to_duckdb, read_parquet]

/-- C4: running a `full_refresh` load twice in succession with identical
source data (two snapshots with the same number of rows — re-reading the
same source produces equally many rows, only the ingestion timestamps
differ) leaves a final printed count equal to one run's count, not double. -/
theorem full_refresh_idempotent_count (s : RawSchema) (t : String)
    (rows1 rows2 : List Row) (hlen : rows2.length = rows1.length) :
    (load_to_duckdb (Snapshot.good rows2)
        (load_to_duckdb (Snapshot.good rows1) s t Mode.full_refresh).schema
        t Mode.full_refresh).printed
      = (load_to_duckdb (Snapshot.good rows1) s t Mode.full_refresh).printed := by
  simp [load_to_duckdb, read_parquet, hlen]

/-- Witness for C4 at two concrete one-row snapshots. -/
theorem full_refresh_idempotent_count_witness :
    ([[("x", Value.num 2)]] : List Row).length = ([[("x", Value.num 1)]] : List Row).length ∧
    (load_to_duckdb (Snapshot.good [[("x", Value.num 2)]])
        (load_to_duckdb (Snapshot.good [[("x", Value.num 1)]])
          (fun _ => none) "raw_loans" Mode.full_refresh).schema
        "raw_loans" Mode.full_refresh).printed
      = (load_to_duckdb (Snapshot.good [[("x", Value.num 1)]])
          (fun _ => none) "raw_loans" Mode.full_refresh).printed :=
  ⟨rfl, full_refresh_idempotent_count (fun _ => none) "raw_loans" _ _ rfl⟩

/-- C5: two incremental loads of disjoint snapshots, starting from an absent
or empty RAW table, print `r1.length` after the first run and
`r1.length + r2.length` after the second — the final count is the sum of the
two runs' counts. -/
theorem incremental_accumulates (s : RawSchema) (t : String) (r1 r2 : List Row)
    (hstart : s t = none ∨ s t = some [])
    (hdis : ∀ x ∈ r1, x ∉ r2) :
    (load_to_duckdb (Snapshot.good r1) s t Mode.incremental).printed = Except.ok r1.length ∧
    (load_to_duckdb (Snapshot.good r2)
        (load_to_duckdb (Snapshot.good r1) s t Mode.incremental).schema
        t Mode.incremental).printed = Except.ok (r1.length + r2.length) := by
  rcases hstart with h | h <;> simp [load_to_duckdb, read_parquet, h]

/-- Witness for C5 at concrete disjoint one-row snapshots on an absent table. -/
theorem incremental_accumulates_witness :
    ((fun (_ : String) => (none : Option (List Row))) "raw_loans" = none ∨
     (fun (_ : String) => (none : Option (List Row))) "raw_loans" = some []) ∧
    (∀ x ∈ ([[("x", Value.num 1)]] : List Row), x ∉ ([[("x", Value.num 2)]] : List Row)) ∧
    ((load_to_duckdb (Snapshot.good [[("x", Value.num 1)]])
        (fun _ => none) "raw_loans" Mode.incremental).printed = Except.ok 1 ∧
     (load_to_duckdb (Snapshot.good [[("x", Value.num 2)]])
        (load_to_duckdb (Snapshot.good [[("x", Value.num 1)]])
          (fun _ => none) "raw_loans" Mode.incremental).schema
        "raw_loans" Mode.incremental).printed = Except.ok (1 + 1)) :=
  ⟨Or.inl rfl, by decide,
   incremental_accumulates (fun _ => none) "raw_loans" _ _ (Or.inl rfl) (by decide)⟩

/-- C3: on a store in which the three canonical tables exist, the gate fails
with `EmptyLayer` exactly when some layer's count is below its configured
minimum (`DATA_QUALITY_THRESHOLDS` sets the minimum to 1 row per layer, so
below-minimum coincides with the literal `== 0` tests of lines 150-155);
a RAW count of zero yields `EmptyLayer "raw"`, and three non-empty layers
yield success (`True`). -/
theorem quality_gate_min_thresholds (st : Store) (rawRows silverRows goldRows : List Row)
    (hraw : st.raw "raw_loans" = some rawRows)
    (hsilver : st.silver "silver_loans" = some silverRows)
    (hgold : st.gold "fact_loan" = some goldRows) :
    ((∃ l, validate_data_quality st = Except.error (QualityError.emptyLayer l)) ↔
      (rawRows.length < DATA_QUALITY_THRESHOLDS.min_raw_rows ∨
       silverRows.length < DATA_QUALITY_THRESHOLDS.min_silver_rows ∨
       goldRows.length < DATA_QUALITY_THRESHOLDS.min_gold_rows)) ∧
    (rawRows.length = 0 →
      validate_data_quality st = Except.error (QualityError.emptyLayer "raw")) ∧
    (rawRows.length ≠ 0 → silverRows.length ≠ 0 → goldRows.length ≠ 0 →
      validate_data_quality st = Except.ok true) := by
  unfold validate_data_quality
  rw [hraw, hsilver, hgold]
  by_cases h1 : rawRows.length = 0 <;> by_cases h2 : silverRows.length = 0 <;>
    by_cases h3 : goldRows.length = 0 <;>
      simp [h1, h2, h3, DATA_QUALITY_THRESHOLDS, Nat.lt_one_iff]

/-- A generic loan row used to populate non-empty layers in witnesses. -/
def loanRow : Row := [("loan_id", Value.num 7)]

/-- A store with RAW empty (0 rows) and SILVER/GOLD holding 10 rows each. -/
def emptyRawStore : Store :=
  ⟨fun n => if n = "raw_loans" then some [] else none,
   fun n => if n = "silver_loans" then some (List.replicate 10 loanRow) else none,
   fun n => if n = "fact_loan" then some (List.replicate 10 loanRow) else none⟩

/-- Witness for C3 at the store with RAW=0, SILVER=10, GOLD=10 rows. -/
theorem quality_gate_min_thresholds_witness :
    emptyRawStore.raw "raw_loans" = some [] ∧
    emptyRawStore.silver "silver_loans" = some (List.replicate 10 loanRow) ∧
    emptyRawStore.gold "fact_loan" = some (List.replicate 10 loanRow) ∧
    (((∃ l, validate_data_quality emptyRawStore = Except.error (QualityError.emptyLayer l)) ↔
       (([] : List Row).length < DATA_QUALITY_THRESHOLDS.min_raw_rows ∨
        (List.replicate 10 loanRow).length < DATA_QUALITY_THRESHOLDS.min_silver_rows ∨
        (List.replicate 10 loanRow).length < DATA_QUALITY_THRESHOLDS.min_gold_rows)) ∧
     (([] : List Row).length = 0 →
       validate_data_quality emptyRawStore = Except.error (QualityError.emptyLayer "raw")) ∧
     (([] : List Row).length ≠ 0 → (List.replicate 10 loanRow).length ≠ 0 →
       (List.replicate 10 loanRow).length ≠ 0 →
       validate_data_quality emptyRawStore = Except.ok true)) :=
  ⟨rfl, rfl, rfl, quality_gate_min_thresholds emptyRawStore [] _ _ rfl rfl rfl⟩

/-- Row count of a source-load result (0 for a failed load), used to compare
load outcomes concretely. -/
def loadedRowCount (r : Except SourceError DataFrame) : Nat :=
  match r with
  | Except.ok df => df.rows.length
  | Except.error _ => 0

/-- A one-row single source file. -/
def singleFile : ExcelFile := ⟨"a.xlsx", ["x"], [[("x", Value.num 1)]]⟩

/-- A two-row directory source file with a different column. -/
def dirFile : ExcelFile := ⟨"b.xlsx", ["y"], [[("y", Value.num 2)], [("y", Value.num 3)]]⟩

/-- C6 counterexample to the claim as stated: with both a single path and a
directory given, `load_excel_files` takes the `if excel_path:` branch first
(line 39), so the result is the one-row single-file load, not the two-row
directory load — single-path mode, not directory mode, takes precedence. -/
theorem both_sources_single_path_wins :
    loadedRowCount (load_excel_files (fun _ => 0) (some singleFile) (some [dirFile])) = 1 ∧
    loadedRowCount (load_excel_files (fun _ => 0) none (some [dirFile])) = 2 ∧
    load_excel_files (fun _ => 0) (some singleFile) (some [dirFile])
      = load_excel_files (fun _ => 0) (some singleFile) none := by
  exact ⟨rfl, rfl, rfl⟩

/-- C6 (amended): with neither source flag given, `load_excel_files` fails
with the configuration error of line 73 (the spec's `InvalidConfiguration`);
with both given, single-path mode takes precedence — the result is
identical to the one with only the single path given, for every clock,
file and directory. -/
theorem source_mode_selection (clock : Nat → Nat) (f : ExcelFile) (fs : List ExcelFile) :
    load_excel_files clock none none
      = Except.error
          (SourceError.invalidConfiguration "Either --excel or --excel_dir must be specified") ∧
    load_excel_files clock (some f) (some fs) = load_excel_files clock (some f) none :=
  ⟨rfl, rfl⟩

/-- C10: the quality gate observes only the three fixed tables
`raw.raw_loans`, `silver.silver_loans` and `gold.fact_loan`: two stores
agreeing on those three names get the same verdict whatever else they hold;
on a store whose canonical tables exist, the `EmptyLayer "raw"` failure
happens exactly when the `raw_loans` count equals zero (the gate reads no
configured threshold); and an ingestion load into any table name other than
`raw_loans` is invisible to the gate — its verdict is unchanged by the load. -/
theorem quality_gate_fixed_tables (st1 st2 st : Store)
    (rawRows silverRows goldRows : List Row) (snap : Snapshot) (t : String) (m : Mode)
    (h1 : st1.raw "raw_loans" = st2.raw "raw_loans")
    (h2 : st1.silver "silver_loans" = st2.silver "silver_loans")
    (h3 : st1.gold "fact_loan" = st2.gold "fact_loan")
    (hraw : st.raw "raw_loans" = some rawRows)
    (hsilver : st.silver "silver_loans" = some silverRows)
    (hgold : st.gold "fact_loan" = some goldRows)
    (ht : t ≠ "raw_loans") :
    validate_data_quality st1 = validate_data_quality st2 ∧
    (validate_data_quality st = Except.error (QualityError.emptyLayer "raw") ↔
      rawRows.length = 0) ∧
    validate_data_quality ⟨(load_to_duckdb snap st.raw t m).schema, st.silver, st.gold⟩
      = validate_data_quality st := by
  have congr_fixed : ∀ sa sb : Store, sa.raw "raw_loans" = sb.raw "raw_loans" →
      sa.silver "silver_loans" = sb.silver "silver_loans" →
      sa.gold "fact_loan" = sb.gold "fact_loan" →
      validate_data_quality sa = validate_data_quality sb := by
    intro sa sb ha hb hc
    unfold validate_data_quality
    rw [ha, hb, hc]
  refine ⟨congr_fixed st1 st2 h1 h2 h3, ?_, ?_⟩
  · unfold validate_data_quality
    rw [hraw, hsilver, hgold]
    by_cases e1 : rawRows.length = 0 <;> by_cases e2 : silverRows.length = 0 <;>
      by_cases e3 : goldRows.length = 0 <;> simp [e1, e2, e3]
  · exact congr_fixed _ st
      (load_to_duckdb_preserves_other snap st.raw t "raw_loans" m (fun he => ht he.symm))
      rfl rfl

/-- Witness for C10: two stores agreeing on the canonical tables (one also
holding an unrelated `raw.other` table), the empty-RAW store, and an
incremental load into `raw.other_loans` on that store. -/
theorem quality_gate_fixed_tables_witness :
    emptyRawStore.raw "raw_loans"
      = (Store.mk
          (fun n => if n = "other" then some [loanRow] else emptyRawStore.raw n)
          emptyRawStore.silver emptyRawStore.gold).raw "raw_loans" ∧
    ("other_loans" : String) ≠ "raw_loans" ∧
    (validate_data_quality emptyRawStore
        = validate_data_quality
            (Store.mk
              (fun n => if n = "other" then some [loanRow] else emptyRawStore.raw n)
              emptyRawStore.silver emptyRawStore.gold) ∧
      (validate_data_quality emptyRawStore = Except.error (QualityError.emptyLayer "raw") ↔
        ([] : List Row).length = 0) ∧
      validate_data_quality
          ⟨(load_to_duckdb (Snapshot.good [loanRow]) emptyRawStore.raw "other_loans"
              Mode.incremental).schema,
            emptyRawStore.silver, emptyRawStore.gold⟩
        = validate_data_quality emptyRawStore) :=
  ⟨by decide, by decide,
   quality_gate_fixed_tables emptyRawStore
    (Store.mk (fun n => if n = "other" then some [loanRow] else emptyRawStore.raw n)
      emptyRawStore.silver emptyRawStore.gold)
    emptyRawStore [] (List.replicate 10 loanRow) (List.replicate 10 loanRow)
    (Snapshot.good [loanRow]) "other_loans" Mode.incremental
    (by decide) rfl rfl rfl rfl rfl (by decide)⟩

/-- An Airflow environment with `ENVIRONMENT=production` and no
`RAW_S3_BUCKET` set. -/
def prodNoBucketEnv : AirflowEnv := ⟨some "production", none, none, none⟩

/-- C9 counterexample to the claim as stated, on the `run_ingestion` path:
under `ENVIRONMENT=production` with `RAW_S3_BUCKET` unset, lines 49-53 build
the ingestion command without `--prod` (the `if s3_bucket:` guard silently
drops the flag), and the resulting run — the ingest script with `prod`
false on a one-row source — completes with `Except.ok 1`: the mirror upload
is silently skipped instead of failing loudly. -/
theorem production_without_bucket_silently_skips :
    "--prod" ∉ run_ingestion_cmd prodNoBucketEnv none ∧
    (ingest_main ⟨true, true⟩ (fun _ => 0) "20250101_120000"
        "0123456789abcdef0123456789abcdef"
        ⟨some singleFile, none, "raw_loans", Mode.full_refresh, false, "", "raw/loans"⟩
        (fun _ => none) []).result = Except.ok 1 := by
  exact ⟨by decide, rfl⟩

/-- C9 (amended): in the ingestion script itself the publish path is loud
and safe: when `--prod` is set and the source load succeeds, an empty
(unresolvable) bucket aborts the run with the configuration error of line
107, a failed remote copy aborts it with the upload failure, and in either
case the local snapshot file just written is still in the raw directory and
the store was never touched. The Airflow wrapper `run_ingestion`, however,
silently omits `--prod` when `ENVIRONMENT=production` and no bucket is
resolvable, so on that path no failure occurs (see the counterexample). -/
theorem publish_failure_is_loud (env : S3Env) (clock : Nat → Nat) (tsStr hex : String)
    (a : IngestArgs) (s : RawSchema) (rd : List (String × DataFrame)) (df : DataFrame)
    (hsrc : load_excel_files clock a.excel a.excel_dir = Except.ok df)
    (hprod : a.prod = true) (hboto : env.boto3Available = true) :
    (a.s3_bucket = "" →
      (ingest_main env clock tsStr hex a s rd).result
        = Except.error (IngestError.upload UploadError.missingBucket)) ∧
    (a.s3_bucket ≠ "" → env.uploadSucceeds = false →
      (ingest_main env clock tsStr hex a s rd).result
        = Except.error (IngestError.upload UploadError.s3Failure)) ∧
    (∀ e : UploadError,
      (ingest_main env clock tsStr hex a s rd).result
          = Except.error (IngestError.upload e) →
      (ingest_main env clock tsStr hex a s rd).rawDir
          = rd ++ [(parquet_filename a.table a.mode tsStr hex, df)] ∧
      (ingest_main env clock tsStr hex a s rd).schema = s) := by
  refine ⟨?_, ?_, ?_⟩
  · intro hb
    simp [ingest_main, hsrc, hprod, upload_to_s3, hboto, hb, write_parquet_with_metadata]
  · intro hb hup
    simp [ingest_main, hsrc, hprod, upload_to_s3, hboto, hb, hup, write_parquet_with_metadata]
  · intro e he
    by_cases hb : a.s3_bucket = ""
    · constructor <;>
        simp [ingest_main, hsrc, hprod, upload_to_s3, hboto, hb, write_parquet_with_metadata]
    · by_cases hup : env.uploadSucceeds = true
      · exfalso
        simp [ingest_main, hsrc, hprod, upload_to_s3, hboto, hb, hup, finishLoad,
          write_parquet_with_metadata] at he
        cases hload : (load_to_duckdb (Snapshot.good df.rows) s a.table a.mode).printed with
        | ok n => rw [hload] at he; simp [Except.mapError] at he
        | error le => rw [hload] at he; cases le; simp [Except.mapError] at he
      · constructor <;>
          simp [ingest_main, hsrc, hprod, upload_to_s3, hboto, hb,
            eq_false_of_ne_true hup, write_parquet_with_metadata]

/-- Witness for C9 at a concrete prod run with an empty bucket on a one-row
source file. -/
theorem publish_failure_is_loud_witness :
    load_excel_files (fun _ => 0)
        (IngestArgs.mk (some singleFile) none "raw_loans" Mode.full_refresh true "" "raw/loans").excel
        (IngestArgs.mk (some singleFile) none "raw_loans" Mode.full_refresh true "" "raw/loans").excel_dir
      = Except.ok (stamp (read_excel singleFile) "a.xlsx" 0) ∧
    ((("" : String) = "" →
      (ingest_main ⟨true, true⟩ (fun _ => 0) "20250101_120000" "00000000"
          (IngestArgs.mk (some singleFile) none "raw_loans" Mode.full_refresh true "" "raw/loans")
          (fun _ => none) []).result
        = Except.error (IngestError.upload UploadError.missingBucket)) ∧
     (("" : String) ≠ "" → (true : Bool) = false →
      (ingest_main ⟨true, true⟩ (fun _ => 0) "20250101_120000" "00000000"
          (IngestArgs.mk (some singleFile) none "raw_loans" Mode.full_refresh true "" "raw/loans")
          (fun _ => none) []).result
        = Except.error (IngestError.upload UploadError.s3Failure)) ∧
     (∀ e : UploadError,
      (ingest_main ⟨true, true⟩ (fun _ => 0) "20250101_120000" "00000000"
          (IngestArgs.mk (some singleFile) none "raw_loans" Mode.full_refresh true "" "raw/loans")
          (fun _ => none) []).result
          = Except.error (IngestError.upload e) →
      (ingest_main ⟨true, true⟩ (fun _ => 0) "20250101_120000" "00000000"
          (IngestArgs.mk (some singleFile) none "raw_loans" Mode.full_refresh true "" "raw/loans")
          (fun _ => none) []).rawDir
          = [] ++ [(parquet_filename "raw_loans" Mode.full_refresh "20250101_120000" "00000000",
                    stamp (read_excel singleFile) "a.xlsx" 0)] ∧
      (ingest_main ⟨true, true⟩ (fun _ => 0) "20250101_120000" "00000000"
          (IngestArgs.mk (some singleFile) none "raw_loans" Mode.full_refresh true "" "raw/loans")
          (fun _ => none) []).schema = (fun _ => none))) :=
  ⟨rfl,
   publish_failure_is_loud ⟨true, true⟩ (fun _ => 0) "20250101_120000" "00000000"
     (IngestArgs.mk (some singleFile) none "raw_loans" Mode.full_refresh true "" "raw/loans")
     (fun _ => none) [] (stamp (read_excel singleFile) "a.xlsx" 0) rfl rfl rfl⟩

/-! ### Helper lemmas for the SourceLoader claim -/

/-- Looking a key up past a prefix none of whose cells carry that key. -/
theorem rowGet_append (r l : Row) (c : String) (h : ∀ p ∈ r, p.1 ≠ c) :
    rowGet (r ++ l) c = rowGet l c := by
  induction r with
  | nil => rfl
  | cons p ps ih =>
    have hp : (p.1 == c) = false :=
      beq_eq_false_iff_ne.mpr (h p (List.mem_cons_self p ps))
    simp only [rowGet, List.cons_append, List.find?_cons, hp]
    exact ih (fun q hq => h q (List.mem_cons_of_mem p hq))

/-- A key carried by no cell of a row reads as null. -/
theorem rowGet_eq_none (r : Row) (c : String) (h : ∀ p ∈ r, p.1 ≠ c) :
    rowGet r c = none := by
  have := rowGet_append r [] c h
  simpa using this

/-- Membership in the running column union. -/
theorem mem_colUnion (a cs : List String) (c : String) :
    c ∈ colUnion a cs ↔ c ∈ a ∨ c ∈ cs := by
  unfold colUnion
  rw [List.mem_append]
  constructor
  · rintro (h | h)
    · exact Or.inl h
    · exact Or.inr (List.mem_of_mem_filter h)
  · intro h
    by_cases ha : c ∈ a
    · exact Or.inl ha
    · rcases h with h | h
      · exact Or.inl h
      · refine Or.inr (List.mem_filter.mpr ⟨h, ?_⟩)
        simp [List.contains, List.elem_iff, ha]

/-- Membership in the folded column union of `concatFrames`. -/
theorem mem_foldl_colUnion (dfs : List DataFrame) (acc : List String) (c : String) :
    c ∈ dfs.foldl (fun a df => colUnion a df.cols) acc ↔
      c ∈ acc ∨ ∃ df ∈ dfs, c ∈ df.cols := by
  induction dfs generalizing acc with
  | nil => simp
  | cons d ds ih =>
    simp only [List.foldl_cons, ih, mem_colUnion, List.mem_cons]
    constructor
    · rintro (((h | h) | ⟨df, hdf, hc⟩))
      · exact Or.inl h
      · exact Or.inr ⟨d, Or.inl rfl, h⟩
      · exact Or.inr ⟨df, Or.inr hdf, hc⟩
    · rintro (h | ⟨df, (rfl | hdf), hc⟩)
      · exact Or.inl (Or.inl h)
      · exact Or.inl (Or.inr hc)
      · exact Or.inr ⟨df, hdf, hc⟩

/-- Column membership of a combined frame is the union over the frames. -/
theorem mem_combine_cols (dfs : List DataFrame) (c : String) :
    c ∈ (combine dfs).cols ↔ ∃ df ∈ dfs, c ∈ df.cols := by
  match dfs with
  | [] => simp [combine, concatFrames]
  | [d] => simp [combine]
  | d :: d2 :: ds =>
    show c ∈ (concatFrames (d :: d2 :: ds)).cols ↔ _
    simp only [concatFrames, mem_foldl_colUnion, List.not_mem_nil, false_or]

/-- Rows of a combined frame are the concatenation of the frames' rows. -/
theorem combine_rows (dfs : List DataFrame) :
    (combine dfs).rows = (dfs.map DataFrame.rows).flatten := by
  match dfs with
  | [] => rfl
  | [d] => simp [combine]
  | d :: d2 :: ds => rfl

/-- The first provenance cell of a stamped row. -/
theorem rowGet_prov_sf (v w : Value) :
    rowGet [("_source_file", v), ("_ingestion_timestamp", w)] "_source_file" = some v := by
  rfl

/-- The second provenance cell of a stamped row. -/
theorem rowGet_prov_it (v w : Value) :
    rowGet [("_source_file", v), ("_ingestion_timestamp", w)] "_ingestion_timestamp"
      = some w := by
  rfl

/-- Mapping a function of the payload over an enumerated list ignores the
indices. -/
theorem enum_map_snd_comp {α β : Type _} (l : List α) (g : α → β) :
    l.enum.map (fun p => g p.2) = l.map g := by
  apply List.ext_getElem
  · simp [List.enum_length]
  · intro i h1 h2
    simp [List.getElem_enum]

/-- C7: for every supported source shape the SourceLoader output is faithful.
Single-file mode: the output has exactly the file's row count and every row
carries the file's name and a timestamp in the provenance columns.
Directory mode (nonempty file list, well-formed files whose own columns do
not clash with the provenance names): the output row count is the sum of the
per-file row counts; the column set is the union of the files' columns plus
the two provenance columns; every output row carries non-null provenance;
and each source row appears stamped with its file's name, reading null on
every unified column its own file lacks. -/
theorem source_loader_output (clock : Nat → Nat) (f0 : ExcelFile) (files : List ExcelFile)
    (hwf0 : f0.wf)
    (h0s : "_source_file" ∉ f0.cols) (h0t : "_ingestion_timestamp" ∉ f0.cols)
    (hne : files ≠ [])
    (hwf : ∀ f ∈ files, f.wf)
    (hfs : ∀ f ∈ files, "_source_file" ∉ f.cols)
    (hft : ∀ f ∈ files, "_ingestion_timestamp" ∉ f.cols) :
    (∃ df, load_excel_files clock (some f0) none = Except.ok df ∧
       df.rows.length = f0.rows.length ∧
       ∀ r ∈ df.rows,
         rowGet r "_source_file" = some (Value.str f0.fname) ∧
         ∃ t, rowGet r "_ingestion_timestamp" = some (Value.ts t)) ∧
    (∃ df, load_excel_files clock none (some files) = Except.ok df ∧
       df.rows.length = (files.map (fun f => f.rows.length)).sum ∧
       (∀ c, c ∈ df.cols ↔
         ((∃ f ∈ files, c ∈ f.cols) ∨ c = "_source_file" ∨ c = "_ingestion_timestamp")) ∧
       (∀ r ∈ df.rows,
         (∃ nm, rowGet r "_source_file" = some (Value.str nm)) ∧
         (∃ t, rowGet r "_ingestion_timestamp" = some (Value.ts t))) ∧
       (∀ f ∈ files, ∀ r0 ∈ f.rows, ∃ r ∈ df.rows,
         rowGet r "_source_file" = some (Value.str f.fname) ∧
         ∀ c, c ∉ f.cols → c ≠ "_source_file" → c ≠ "_ingestion_timestamp" →
           rowGet r c = none)) := by
  constructor
  · refine ⟨stamp (read_excel f0) f0.fname (clock 0), rfl, by simp [stamp, read_excel], ?_⟩
    intro r hr
    simp only [stamp, read_excel, List.mem_map] at hr
    obtain ⟨r0, hr0, rfl⟩ := hr
    have hkey_sf : ∀ p ∈ r0, p.1 ≠ "_source_file" := fun p hp hc =>
      h0s (hc ▸ hwf0 r0 hr0 p hp)
    have hkey_it : ∀ p ∈ r0, p.1 ≠ "_ingestion_timestamp" := fun p hp hc =>
      h0t (hc ▸ hwf0 r0 hr0 p hp)
    exact ⟨by rw [rowGet_append _ _ _ hkey_sf, rowGet_prov_sf],
           ⟨clock 0, by rw [rowGet_append _ _ _ hkey_it, rowGet_prov_it]⟩⟩
  · have hload : load_excel_files clock none (some files)
        = Except.ok (combine (files.enum.map
            (fun fi => stamp (read_excel fi.2) fi.2.fname (clock fi.1)))) := by
      simp [load_excel_files, hne]
    refine ⟨_, hload, ?_, ?_, ?_, ?_⟩
    · rw [combine_rows, List.length_flatten, List.map_map, List.map_map]
      have hmap : List.map ((List.length ∘ DataFrame.rows) ∘
            (fun fi : Nat × ExcelFile => stamp (read_excel fi.2) fi.2.fname (clock fi.1)))
            files.enum
          = List.map (fun f : ExcelFile => f.rows.length) files := by
        rw [← enum_map_snd_comp files (fun f : ExcelFile => f.rows.length)]
        apply List.map_congr_left
        intro fi _
        simp [stamp, read_excel]
      rw [hmap]
    · intro c
      rw [mem_combine_cols]
      constructor
      · rintro ⟨sdf, hsdf, hc⟩
        rw [List.mem_map] at hsdf
        obtain ⟨fi, hfi, rfl⟩ := hsdf
        have h2 : ∃ x ∈ files.enum,
            c ∈ (stamp (read_excel x.2) x.2.fname (clock x.1)).cols := ⟨fi, hfi, hc⟩
        rw [List.exists_mem_enum] at h2
        obtain ⟨i, hi, hci⟩ := h2
        simp only [stamp, read_excel, List.mem_append] at hci
        rcases hci with hci | hci
        · exact Or.inl ⟨files[i], List.getElem_mem hi, hci⟩
        · simp only [List.mem_cons, List.not_mem_nil, or_false] at hci
          rcases hci with rfl | rfl
          · exact Or.inr (Or.inl rfl)
          · exact Or.inr (Or.inr rfl)
      · have henum : ∀ i, (h : i < files.length) → (i, files[i]) ∈ files.enum := by
          intro i hi
          have h3 : files.enum.get ⟨i, by simpa [List.enum_length] using hi⟩ ∈ files.enum :=
            List.get_mem _ _ _
          simpa [List.getElem_enum] using h3
        rintro (⟨f, hf, hc⟩ | rfl | rfl)
        · rw [List.mem_iff_getElem] at hf
          obtain ⟨i, hi, hfi⟩ := hf
          subst hfi
          refine ⟨stamp (read_excel files[i]) files[i].fname (clock i),
            List.mem_map.mpr ⟨(i, files[i]), henum i hi, rfl⟩, ?_⟩
          simp only [stamp, read_excel, List.mem_append]
          exact Or.inl hc
        · have hpos : 0 < files.length := List.length_pos.mpr hne
          refine ⟨stamp (read_excel files[0]) files[0].fname (clock 0),
            List.mem_map.mpr ⟨(0, files[0]), henum 0 hpos, rfl⟩, ?_⟩
          simp [stamp, read_excel]
        · have hpos : 0 < files.length := List.length_pos.mpr hne
          refine ⟨stamp (read_excel files[0]) files[0].fname (clock 0),
            List.mem_map.mpr ⟨(0, files[0]), henum 0 hpos, rfl⟩, ?_⟩
          simp [stamp, read_excel]
    · intro r hr
      rw [combine_rows, List.mem_flatten] at hr
      obtain ⟨rl, hrl, hrmem⟩ := hr
      rw [List.mem_map] at hrl
      obtain ⟨sdf, hsdf, rfl⟩ := hrl
      rw [List.mem_map] at hsdf
      obtain ⟨fi, hfi, rfl⟩ := hsdf
      have h2 : ∃ x ∈ files.enum,
          r ∈ (stamp (read_excel x.2) x.2.fname (clock x.1)).rows := ⟨fi, hfi, hrmem⟩
      rw [List.exists_mem_enum] at h2
      obtain ⟨i, hi, hri⟩ := h2
      simp only [stamp, read_excel, List.mem_map] at hri
      obtain ⟨r0, hr0, rfl⟩ := hri
      have hfmem : files[i] ∈ files := List.getElem_mem hi
      have hkey_sf : ∀ p ∈ r0, p.1 ≠ "_source_file" := fun p hp hc =>
        hfs files[i] hfmem (hc ▸ hwf files[i] hfmem r0 hr0 p hp)
      have hkey_it : ∀ p ∈ r0, p.1 ≠ "_ingestion_timestamp" := fun p hp hc =>
        hft files[i] hfmem (hc ▸ hwf files[i] hfmem r0 hr0 p hp)
      exact ⟨⟨files[i].fname, by rw [rowGet_append _ _ _ hkey_sf, rowGet_prov_sf]⟩,
             ⟨clock i, by rw [rowGet_append _ _ _ hkey_it, rowGet_prov_it]⟩⟩
    · intro f hf r0 hr0
      rw [List.mem_iff_getElem] at hf
      obtain ⟨i, hi, hfi⟩ := hf
      subst hfi
      have hfmem : files[i] ∈ files := List.getElem_mem hi
      have henum : (i, files[i]) ∈ files.enum := by
        have h3 : files.enum.get ⟨i, by simpa [List.enum_length] using hi⟩ ∈ files.enum :=
          List.get_mem _ _ _
        simpa [List.getElem_enum] using h3
      have hkey_sf : ∀ p ∈ r0, p.1 ≠ "_source_file" := fun p hp hc =>
        hfs files[i] hfmem (hc ▸ hwf files[i] hfmem r0 hr0 p hp)
      refine ⟨r0 ++ [("_source_file", Value.str files[i].fname),
                     ("_ingestion_timestamp", Value.ts (clock i))], ?_, ?_, ?_⟩
      · rw [combine_rows, List.mem_flatten]
        refine ⟨(stamp (read_excel files[i]) files[i].fname (clock i)).rows,
          List.mem_map.mpr ⟨stamp (read_excel files[i]) files[i].fname (clock i),
            List.mem_map.mpr ⟨(i, files[i]), henum, rfl⟩, rfl⟩, ?_⟩
        simp only [stamp, read_excel, List.mem_map]
        exact ⟨r0, hr0, rfl⟩
      · rw [rowGet_append _ _ _ hkey_sf, rowGet_prov_sf]
      · intro c hc hcs hct
        apply rowGet_eq_none
        intro p hp
        rw [List.mem_append] at hp
        rcases hp with hp | hp
        · exact fun he => hc (he ▸ hwf files[i] hfmem r0 hr0 p hp)
        · simp only [List.mem_cons, List.not_mem_nil, or_false] at hp
          rcases hp with rfl | rfl
          · exact Ne.symm hcs
          · exact Ne.symm hct

/-- Character data of a Python-style slice. -/
theorem strSlice_data (s : String) (n : Nat) : (strSlice s n).data = s.data.take n := rfl

/-- The character data of a snapshot filename, append-normalized. -/
theorem parquet_filename_data (t : String) (m : Mode) (ts h : String) :
    (parquet_filename t m ts h).data
      = t.data ++ "_".data ++ (modeStr m).data ++ "_".data ++ ts.data ++ "_".data
        ++ h.data.take 8 ++ ".parquet".data := by
  simp only [parquet_filename, String.data_append, strSlice_data]

/-- C8 (amended): every snapshot filename has the shape
`{table}_{mode}_{timestamp}_{8-hex}.parquet`; the random suffix is exactly 8
characters when the uuid hex carries its full 32; and two invocations for
the same table, mode and wall-clock second produce distinct filenames
whenever the first 8 characters of their `uuid4().hex` draws differ —
uniqueness rests solely on the randomness of that 32-bit suffix, it is not
unconditional (see the counterexample for coinciding draws). -/
theorem parquet_filename_spec (t : String) (m : Mode) (ts h1 h2 : String)
    (hne : strSlice h1 8 ≠ strSlice h2 8) :
    parquet_filename t m ts h1
      = t ++ "_" ++ modeStr m ++ "_" ++ ts ++ "_" ++ strSlice h1 8 ++ ".parquet" ∧
    (32 ≤ h1.length → (strSlice h1 8).length = 8) ∧
    parquet_filename t m ts h1 ≠ parquet_filename t m ts h2 := by
  refine ⟨rfl, ?_, ?_⟩
  · intro hl
    show (h1.data.take 8).length = 8
    rw [List.length_take]
    exact Nat.min_eq_left (le_trans (by norm_num) hl)
  · intro heq
    apply hne
    have hd := congrArg String.data heq
    rw [parquet_filename_data, parquet_filename_data] at hd
    exact congrArg String.mk (List.append_cancel_left (List.append_cancel_right hd))

/-- C8 counterexample to the claim as stated: the code has no mechanism
forcing distinct `uuid4` draws across invocations, and two invocations in
the same second for the same table and mode whose draws coincide yield the
same filename — "never produce colliding filenames" does not hold
unconditionally, only with probability. -/
theorem parquet_filename_collision :
    ¬ (∀ h1 h2 : String, h1.length = 32 → h2.length = 32 →
        parquet_filename "raw_loans" Mode.full_refresh "20250101_120000" h1
          ≠ parquet_filename "raw_loans" Mode.full_refresh "20250101_120000" h2) := by
  intro hall
  exact hall "0123456789abcdef0123456789abcdef" "0123456789abcdef0123456789abcdef"
    (by decide) (by decide) rfl

/-- Witness for C8 at two concrete 32-hex uuid draws with distinct prefixes. -/
theorem parquet_filename_spec_witness :
    strSlice "aaaaaaaa000000000000000000000000" 8
      ≠ strSlice "bbbbbbbb000000000000000000000000" 8 ∧
    (parquet_filename "raw_loans" Mode.full_refresh "20250101_120000"
        "aaaaaaaa000000000000000000000000"
      = "raw_loans" ++ "_" ++ modeStr Mode.full_refresh ++ "_" ++ "20250101_120000" ++ "_"
        ++ strSlice "aaaaaaaa000000000000000000000000" 8 ++ ".parquet" ∧
     (32 ≤ ("aaaaaaaa000000000000000000000000" : String).length →
       (strSlice "aaaaaaaa000000000000000000000000" 8).length = 8) ∧
     parquet_filename "raw_loans" Mode.full_refresh "20250101_120000"
        "aaaaaaaa000000000000000000000000"
       ≠ parquet_filename "raw_loans" Mode.full_refresh "20250101_120000"
          "bbbbbbbb000000000000000000000000") :=
  ⟨by decide,
   parquet_filename_spec "raw_loans" Mode.full_refresh "20250101_120000"
     "aaaaaaaa000000000000000000000000" "bbbbbbbb000000000000000000000000" (by decide)⟩

/-- A directory source file carrying a `Purpose` column. -/
def purposeFile : ExcelFile :=
  ⟨"loans_2023.xlsx", ["loan_id", "Purpose"],
   [[("loan_id", Value.num 1), ("Purpose", Value.str "car")],
    [("loan_id", Value.num 2), ("Purpose", Value.str "home")]]⟩

/-- A directory source file missing the `Purpose` column. -/
def noPurposeFile : ExcelFile :=
  ⟨"loans_2024.xlsx", ["loan_id"], [[("loan_id", Value.num 3)]]⟩

/-- A two-file directory with schema drift between the files. -/
def dirFiles : List ExcelFile := [purposeFile, noPurposeFile]

/-- Witness for C7 on the one-row single file and the two-file directory
with a missing column in the second file. -/
theorem source_loader_output_witness :
    singleFile.wf ∧
    "_source_file" ∉ singleFile.cols ∧
    "_ingestion_timestamp" ∉ singleFile.cols ∧
    dirFiles ≠ [] ∧
    (∀ f ∈ dirFiles, f.wf) ∧
    (∀ f ∈ dirFiles, "_source_file" ∉ f.cols) ∧
    (∀ f ∈ dirFiles, "_ingestion_timestamp" ∉ f.cols) ∧
    ((∃ df, load_excel_files (fun i => i) (some singleFile) none = Except.ok df ∧
        df.rows.length = singleFile.rows.length ∧
        ∀ r ∈ df.rows,
          rowGet r "_source_file" = some (Value.str singleFile.fname) ∧
          ∃ t, rowGet r "_ingestion_timestamp" = some (Value.ts t)) ∧
     (∃ df, load_excel_files (fun i => i) none (some dirFiles) = Except.ok df ∧
        df.rows.length = (dirFiles.map (fun f => f.rows.length)).sum ∧
        (∀ c, c ∈ df.cols ↔
          ((∃ f ∈ dirFiles, c ∈ f.cols) ∨ c = "_source_file" ∨ c = "_ingestion_timestamp")) ∧
        (∀ r ∈ df.rows,
          (∃ nm, rowGet r "_source_file" = some (Value.str nm)) ∧
          (∃ t, rowGet r "_ingestion_timestamp" = some (Value.ts t))) ∧
        (∀ f ∈ dirFiles, ∀ r0 ∈ f.rows, ∃ r ∈ df.rows,
          rowGet r "_source_file" = some (Value.str f.fname) ∧
          ∀ c, c ∉ f.cols → c ≠ "_source_file" → c ≠ "_ingestion_timestamp" →
            rowGet r c = none))) :=
  ⟨by unfold ExcelFile.wf; decide, by decide, by decide, by decide,
   by intro f hf; unfold ExcelFile.wf; fin_cases hf <;> decide, by decide, by decide,
   source_loader_output (fun i => i) singleFile dirFiles
     (by unfold ExcelFile.wf; decide) (by decide) (by decide) (by decide)
     (by intro f hf; unfold ExcelFile.wf; fin_cases hf <;> decide) (by decide) (by decide)⟩

end LoanPipeline
